import Mathlib

/-!
Verification development for the ExpenseEase backend (Express + Mongoose).

The definitions below are a shallow embedding of the request handlers in
`controllers/expenseController.js`, `controllers/authController.js` (which also
bundles the user-self-service and admin controllers and the Expense model),
the route wiring in `routes/expense.js`, `routes/auth.js`, `routes/user.js`,
and the two alternative router versions shipped as unnamed source files.
The document store (MongoDB via Mongoose) is modelled as explicit state:
a `Store` value carrying the user and expense collections; every handler is a
function from its inputs and the store to a response paired with the new store.
JavaScript `Date` values are modelled by their local calendar components with
lexicographic comparison, which is how the sources compare them (`new
Date(y, 0, 1)`, `$gte`/`$lte`/`$lt`).  Amounts are modelled as integers.

`models/User.js` and `middleware/auth.js` are not among the provided sources;
the few facts about them that the handlers rely on (password hashing and
comparison, the unique index on `email`, the absence of delete middleware)
are modelled from the specification and marked as such.
-/

namespace ExpenseEase

/-- Whitespace trimming, the model of the `trim` schema setters and of the
`trim()` sanitizers of the validation chains (defined on the character list
so that concrete instances evaluate). -/
def strTrim (s : String) : String :=
  ⟨((s.data.dropWhile Char.isWhitespace).reverse.dropWhile Char.isWhitespace).reverse⟩

/-- Local-time calendar instant, standing for a JavaScript `Date`:
year, month (1-12), day (1-31) and milliseconds past local midnight.
The sources only construct dates and compare them, so the lexicographic
order below is a faithful model of `Date` comparison. -/
structure DateT where
  year : Nat
  month : Nat
  day : Nat
  tod : Nat
deriving DecidableEq

/-- Lexicographic (chronological) order on dates, the model of JS `<=`. -/
def DateT.le (a b : DateT) : Bool :=
  if a.year ≠ b.year then a.year < b.year
  else if a.month ≠ b.month then a.month < b.month
  else if a.day ≠ b.day then a.day < b.day
  else a.tod ≤ b.tod

/-- Strict chronological order, the model of JS `<`. -/
def DateT.lt (a b : DateT) : Bool :=
  a.le b && !(decide (a = b))

/-- `new Date(year, 0, 1)`: local midnight on January 1. -/
def jan1 (y : Nat) : DateT := ⟨y, 1, 1, 0⟩

/-- `new Date(year, 11, 31)`: local midnight on December 31. -/
def dec31 (y : Nat) : DateT := ⟨y, 12, 31, 0⟩

/-- Roles, from the User schema enum and the handlers that test
`req.user.role !== 'admin'`. -/
inductive Role
  | user
  | admin
deriving DecidableEq

/-- User record.  Modelled from the spec: `models/User.js` is not among the
provided sources; fields and defaults follow the specification data model
(role defaults to user, monthlyBudget to 0, currency to USD, isActive to
true) and the README model list (`lastLogin: Date`, no default). The
`password` field stores the salted hash and is excluded from default reads. -/
structure User where
  id : Nat
  name : String
  email : String
  password : String
  role : Role := .user
  monthlyBudget : Int := 0
  currency : String := "USD"
  isActive : Bool := true
  lastLogin : Option DateT := none
deriving DecidableEq

/-- Modelled from the spec: `hashPassword` of the credential utility
(section 4.1), a one-way salted hash living in the missing `models/User.js`
pre-save hook.  Modelled as an injective tagging so that `verifyPassword`
below accepts exactly the hashed plaintext. -/
def hashPassword (p : String) : String := "$2a$10$" ++ p

/-- Modelled from the spec: `verifyPassword`, the model of
`user.comparePassword(candidate)` from the missing `models/User.js`. -/
def verifyPassword (candidate hash : String) : Bool :=
  hashPassword candidate = hash

/-- The fixed 14-value category enum of the Expense schema. -/
def categoryEnum : List String :=
  ["Food & Dining", "Transportation", "Shopping", "Entertainment",
   "Healthcare", "Education", "Housing", "Utilities", "Insurance",
   "Travel", "Gifts", "Personal Care", "Subscriptions", "Other"]

/-- The payment method enum of the Expense schema. -/
def paymentMethodEnum : List String :=
  ["Cash", "Credit Card", "Debit Card", "Bank Transfer", "Digital Wallet", "Other"]

/-- The status enum of the Expense schema. -/
def statusEnum : List String := ["pending", "completed", "cancelled"]

/-- Expense document, from the Mongoose schema in `models/Expense.js`
(bundled at the end of the controllers source).  `user` holds the owning
user id; enum-constrained string fields are kept as strings because the
schema validation that constrains them is itself part of what is verified.
Fields not exercised by any claim (tags, attachments, recurrence) are
omitted from the model. -/
structure Expense where
  id : Nat
  user : Nat
  title : String
  amount : Int
  category : String
  description : Option String := none
  date : DateT
  paymentMethod : String := "Cash"
  status : String := "completed"
deriving DecidableEq

/-- Mongoose schema validation for an expense document: title required
(non-empty after trim) and at most 100 characters, amount at least 0,
category in the 14-value enum, description at most 500 characters,
paymentMethod and status in their enums.  Run by `Expense.create` and by
`findByIdAndUpdate` with `runValidators: true`. -/
def validExpense (e : Expense) : Bool :=
  e.title ≠ "" && e.title.length ≤ 100 &&
  0 ≤ e.amount &&
  categoryEnum.contains e.category &&
  (match e.description with
   | none => true
   | some d => d.length ≤ 500) &&
  paymentMethodEnum.contains e.paymentMethod &&
  statusEnum.contains e.status

/-- The document store: the two Mongoose collections. -/
structure Store where
  users : List User
  expenses : List Expense
deriving DecidableEq

/-- `User.findById`. -/
def Store.findUserById (s : Store) (i : Nat) : Option User :=
  s.users.find? (fun u => u.id = i)

/-- `User.findOne({ email })`. -/
def Store.findUserByEmail (s : Store) (e : String) : Option User :=
  s.users.find? (fun u => u.email = e)

/-- `Expense.findById`. -/
def Store.findExpenseById (s : Store) (i : Nat) : Option Expense :=
  s.expenses.find? (fun e => e.id = i)

/-- `user.save()` after mutating a fetched document: replace the document
with the same id. -/
def Store.saveUser (s : Store) (u : User) : Store :=
  { s with users := s.users.map (fun v => if v.id = u.id then u else v) }

/-- `expense.save()` / `findByIdAndUpdate` commit: replace by id. -/
def Store.saveExpense (s : Store) (e : Expense) : Store :=
  { s with expenses := s.expenses.map (fun v => if v.id = e.id then e else v) }

/-- `user.deleteOne()`: remove the document with that id. -/
def Store.deleteUserById (s : Store) (i : Nat) : Store :=
  { s with users := s.users.filter (fun v => ¬ v.id = i) }

/-- `expense.deleteOne()`. -/
def Store.deleteExpenseById (s : Store) (i : Nat) : Store :=
  { s with expenses := s.expenses.filter (fun v => ¬ v.id = i) }

/-- Store-level write errors.  Modelled from the spec: the unique index on
`email` declared in the missing `models/User.js` makes the losing concurrent
insert fail with a duplicate-key write-conflict. -/
inductive StoreErr
  | duplicateKey
deriving DecidableEq

/-- `User.create`, with the unique-email index enforced by the store. -/
def Store.createUser (s : Store) (u : User) : Except StoreErr Store :=
  if s.users.any (fun v => v.email = u.email) then .error .duplicateKey
  else .ok { s with users := s.users ++ [u] }

/-- The identity attached to the request by the `protect` middleware:
`req.user.id` and `req.user.role`. -/
structure Caller where
  id : Nat
  role : Role
deriving DecidableEq

/-! ## Expense get / update / delete (`expenseController.js`) -/

/-- Response branches of `getExpense` (GET /expenses/:id):
404 Expense not found, 403 Not authorized, 200 with the expense. -/
inductive GetExpenseRes
  | notFound
  | forbidden
  | ok (e : Expense)
deriving DecidableEq

/-- HTTP status of each `getExpense` branch. -/
def GetExpenseRes.status : GetExpenseRes → Nat
  | .notFound => 404
  | .forbidden => 403
  | .ok _ => 200

/-- `exports.getExpense`: fetch by id; 404 if absent; 403 if the owner
differs from the caller and the caller is not admin; otherwise 200 with the
expense.  A pure read: the store is returned unchanged. -/
def getExpense (s : Store) (caller : Caller) (eid : Nat) : GetExpenseRes × Store :=
  match s.findExpenseById eid with
  | none => (.notFound, s)
  | some e =>
    if e.user ≠ caller.id ∧ caller.role ≠ Role.admin then (.forbidden, s)
    else (.ok e, s)

/-- Request body for expense create and update (the validated fields the
model keeps). -/
structure ExpenseBody where
  title : String
  amount : Int
  category : String
  description : Option String := none
  date : Option DateT := none
  paymentMethod : Option String := none
  status : Option String := none
deriving DecidableEq

/-- The document produced by applying a full-body update to an existing
expense (`findByIdAndUpdate(id, req.body, ...)`): provided fields replace
the stored ones, absent optional fields keep the stored values; the schema
setters trim strings. -/
def applyUpdate (e : Expense) (b : ExpenseBody) : Expense :=
  { e with
    title := strTrim b.title
    amount := b.amount
    category := b.category
    description := match b.description with
      | none => e.description
      | some d => some (strTrim d)
    date := b.date.getD e.date
    paymentMethod := b.paymentMethod.getD e.paymentMethod
    status := b.status.getD e.status }

/-- Response branches of `updateExpense` (PUT /expenses/:id):
404, 403, 500 when the re-run validators reject, 200 with the new document. -/
inductive UpdateExpenseRes
  | notFound
  | forbidden
  | internal
  | ok (e : Expense)
deriving DecidableEq

/-- HTTP status of each `updateExpense` branch. -/
def UpdateExpenseRes.status : UpdateExpenseRes → Nat
  | .notFound => 404
  | .forbidden => 403
  | .internal => 500
  | .ok _ => 200

/-- `exports.updateExpense`: fetch by id; 404 if absent; the same ownership
check as `getExpense`; then `findByIdAndUpdate` with `runValidators: true`,
whose validation error is caught by the handler boundary as a 500. -/
def updateExpense (s : Store) (caller : Caller) (eid : Nat) (b : ExpenseBody) :
    UpdateExpenseRes × Store :=
  match s.findExpenseById eid with
  | none => (.notFound, s)
  | some e =>
    if e.user ≠ caller.id ∧ caller.role ≠ Role.admin then (.forbidden, s)
    else
      if validExpense (applyUpdate e b) then
        (.ok (applyUpdate e b), s.saveExpense (applyUpdate e b))
      else (.internal, s)

/-- Response branches of `deleteExpense` (DELETE /expenses/:id). -/
inductive DeleteExpenseRes
  | notFound
  | forbidden
  | ok
deriving DecidableEq

/-- HTTP status of each `deleteExpense` branch. -/
def DeleteExpenseRes.status : DeleteExpenseRes → Nat
  | .notFound => 404
  | .forbidden => 403
  | .ok => 200

/-- `exports.deleteExpense`: fetch by id; 404 if absent; the same ownership
check; then `expense.deleteOne()`. -/
def deleteExpense (s : Store) (caller : Caller) (eid : Nat) : DeleteExpenseRes × Store :=
  match s.findExpenseById eid with
  | none => (.notFound, s)
  | some e =>
    if e.user ≠ caller.id ∧ caller.role ≠ Role.admin then (.forbidden, s)
    else (.ok, s.deleteExpenseById e.id)

/-! ## Auth handlers (`authController.js`) -/

/-- The `normalizeEmail` sanitizer of the express-validator chains on the
register, login and admin-login routes.  Sanitizers run on the request body
unconditionally (no result check is needed for them to apply); modelled as
lowercasing. -/
def normalizeEmail (e : String) : String := ⟨e.data.map Char.toLower⟩

/-- Response branches of `login` (POST /auth/login):
400 missing email or password, 401 Invalid email or password,
401 Account is deactivated, 200 with the user and a token. -/
inductive LoginRes
  | missingFields
  | invalidCredentials
  | accountDisabled
  | ok (u : User) (token : Nat)
deriving DecidableEq

/-- HTTP status of each `login` branch. -/
def LoginRes.status : LoginRes → Nat
  | .missingFields => 400
  | .invalidCredentials => 401
  | .accountDisabled => 401
  | .ok _ _ => 200

/-- `exports.login`: require both fields; look up the user by (normalized)
email including the password hash; 401 InvalidCredentials if absent or the
hash comparison fails; only then 401 AccountDisabled if `isActive` is
false; on success set `lastLogin` to the current time, save, and issue a
token (modelled as the user id carried by the signed claim). -/
def login (s : Store) (email password : String) (now : DateT) : LoginRes × Store :=
  if email = "" ∨ password = "" then (.missingFields, s)
  else
    match s.findUserByEmail (normalizeEmail email) with
    | none => (.invalidCredentials, s)
    | some u =>
      if ¬ verifyPassword password u.password then (.invalidCredentials, s)
      else if ¬ u.isActive then (.accountDisabled, s)
      else
        ((.ok { u with lastLogin := some now } u.id),
         s.saveUser { u with lastLogin := some now })

/-- Response branches of `register` (POST /auth/register):
400 User already exists with this email, 500 from the catch-all boundary,
201 with the user and a token. -/
inductive RegisterRes
  | conflict
  | internal
  | created (u : User) (token : Nat)
deriving DecidableEq

/-- HTTP status of each `register` branch. -/
def RegisterRes.status : RegisterRes → Nat
  | .conflict => 400
  | .internal => 500
  | .created _ _ => 201

/-- The user document `register` builds: hashed password (User model
pre-save hook), normalized email, given budget and currency, defaulted
role and activation. -/
def newUserDoc (nid : Nat) (name email password : String)
    (monthlyBudget : Int) (currency : String) : User :=
  { id := nid, name := name, email := normalizeEmail email,
    password := hashPassword password,
    monthlyBudget := monthlyBudget, currency := currency }

/-- `exports.register`, split at its two store round-trips so that an
interleaving with a concurrent registration is expressible: `snapshot` is
the store the `findOne` existence check read, `current` the store the
`create` runs against (they coincide in an uninterleaved run).  A
duplicate-key write-conflict from the unique email index is caught by the
catch-all boundary, which returns the generic 500. -/
def registerCore (snapshot current : Store) (nid : Nat)
    (name email password : String) (monthlyBudget : Int) (currency : String) :
    RegisterRes × Store :=
  match snapshot.findUserByEmail (normalizeEmail email) with
  | some _ => (.conflict, current)
  | none =>
    match current.createUser (newUserDoc nid name email password monthlyBudget currency) with
    | .ok s => (.created (newUserDoc nid name email password monthlyBudget currency) nid, s)
    | .error _ => (.internal, current)

/-- `exports.register` in an uninterleaved run: check and create read the
same store. -/
def register (s : Store) (nid : Nat) (name email password : String)
    (monthlyBudget : Int) (currency : String) : RegisterRes × Store :=
  registerCore s s nid name email password monthlyBudget currency

/-- Operator credentials from the environment (`ADMIN_EMAIL`,
`ADMIN_PASSWORD`). -/
structure Config where
  adminEmail : String
  adminPassword : String
deriving DecidableEq

/-- Response branches of `adminLogin` (POST /auth/admin-login). -/
inductive AdminLoginRes
  | missingFields
  | invalidCredentials
  | internal
  | ok (u : User) (token : Nat)
deriving DecidableEq

/-- HTTP status of each `adminLogin` branch. -/
def AdminLoginRes.status : AdminLoginRes → Nat
  | .missingFields => 400
  | .invalidCredentials => 401
  | .internal => 500
  | .ok _ _ => 200

/-- The role-admin user document the admin-login create branch builds:
`User.create({ name: 'Admin', email, password, role: 'admin', ... })`.
No `lastLogin` is assigned. -/
def adminUserDoc (cfg : Config) (nid : Nat) : User :=
  { id := nid, name := "Admin", email := cfg.adminEmail,
    password := hashPassword cfg.adminPassword, role := .admin,
    monthlyBudget := 0, currency := "USD" }

/-- `exports.adminLogin`: require both fields; compare them with the
configured operator credentials; on mismatch 401 Invalid admin credentials
with no store access; on match find the user holding the admin email and
update its `lastLogin`, or create a role-admin user when none exists (the
created document gets no `lastLogin` assignment); then issue a token. -/
def adminLogin (cfg : Config) (s : Store) (email password : String)
    (nid : Nat) (now : DateT) : AdminLoginRes × Store :=
  if email = "" ∨ password = "" then (.missingFields, s)
  else if email ≠ cfg.adminEmail ∨ password ≠ cfg.adminPassword then
    (.invalidCredentials, s)
  else
    match s.findUserByEmail cfg.adminEmail with
    | some u =>
      ((.ok { u with lastLogin := some now } u.id),
       s.saveUser { u with lastLogin := some now })
    | none =>
      match s.createUser (adminUserDoc cfg nid) with
      | .ok s => (.ok (adminUserDoc cfg nid) nid, s)
      | .error _ => (.internal, s)

/-! ## User deletion (`routes/user.js` DELETE /profile and the admin
`deleteUser` handler) -/

/-- Response branches of the self-service account deletion. -/
inductive DeleteAccountRes
  | missingPassword
  | invalidCredentials
  | internal
  | ok
deriving DecidableEq

/-- HTTP status of each `deleteAccount` branch (the source returns 400 both
for the missing password and for the failed re-confirmation). -/
def DeleteAccountRes.status : DeleteAccountRes → Nat
  | .missingPassword => 400
  | .invalidCredentials => 400
  | .internal => 500
  | .ok => 200

/-- DELETE /user/profile: require the password in the body; fetch the caller
including the hash (a missing record makes the subsequent method call throw,
surfaced as 500 by the boundary); verify the password; on success
`user.deleteOne()`.  Modelled from the spec where `models/User.js` matters:
the User schema has no delete middleware, so the deletion removes the one
user document and nothing else. -/
def deleteAccount (s : Store) (callerId : Nat) (password : String) :
    DeleteAccountRes × Store :=
  if password = "" then (.missingPassword, s)
  else
    match s.findUserById callerId with
    | none => (.internal, s)
    | some u =>
      if ¬ verifyPassword password u.password then (.invalidCredentials, s)
      else (.ok, s.deleteUserById u.id)

/-- Response branches of the admin `deleteUser` handler. -/
inductive DeleteUserRes
  | notFound
  | badRequest
  | ok
deriving DecidableEq

/-- HTTP status of each `deleteUser` branch. -/
def DeleteUserRes.status : DeleteUserRes → Nat
  | .notFound => 404
  | .badRequest => 400
  | .ok => 200

/-- DELETE /admin/users/:id (`exports.deleteUser`): 404 if the target is
absent; 400 when the target is the caller themself; otherwise
`user.deleteOne()`. -/
def deleteUser (s : Store) (caller : Caller) (uid : Nat) : DeleteUserRes × Store :=
  match s.findUserById uid with
  | none => (.notFound, s)
  | some u =>
    if u.id = caller.id then (.badRequest, s)
    else (.ok, s.deleteUserById u.id)

/-! ## Expense list with pagination (`getExpenses`, admin `getAllExpenses`) -/

/-- `Math.ceil(total / limit)` on naturals (the two arguments come from
`countDocuments` and `parseInt(limit)`). -/
def jsCeil (total limit : Nat) : Nat := (total + limit - 1) / limit

/-- Sort field of the list query (`sortBy`, default `date`).  The claims
only exercise sorts that permute the result, so the two fields the clients
use are modelled. -/
inductive SortField
  | date
  | amount
deriving DecidableEq

/-- The Mongo sort comparator built from `sortBy` and `sortOrder`
(`desc` maps to -1). -/
def expenseLe (f : SortField) (desc : Bool) (a b : Expense) : Bool :=
  match f with
  | .date => if desc then b.date.le a.date else a.date.le b.date
  | .amount => if desc then b.amount ≤ a.amount else a.amount ≤ b.amount

/-- Ordered insertion for the sort model. -/
def insertLe (le : Expense → Expense → Bool) (a : Expense) :
    List Expense → List Expense
  | [] => [a]
  | b :: bs => if le a b then a :: b :: bs else b :: insertLe le a bs

/-- Insertion sort modelling the Mongo `$sort` / `.sort()` stage. -/
def sortExpenses (le : Expense → Expense → Bool) (l : List Expense) : List Expense :=
  l.foldr (insertLe le) []

/-- Query parameters of GET /expenses after parsing (`parseInt` on page and
limit, `parseFloat` on the amount bounds, `new Date` on the date bounds). -/
structure ListQuery where
  page : Nat := 1
  limit : Nat := 10
  category : Option String := none
  startDate : Option DateT := none
  endDate : Option DateT := none
  minAmount : Option Int := none
  maxAmount : Option Int := none
  sortBy : SortField := .date
  sortOrderDesc : Bool := true
deriving DecidableEq

/-- The Mongo filter built by `getExpenses`: owner scoping plus the optional
category, date-range and amount-range conditions. -/
def listFilter (uid : Nat) (q : ListQuery) (e : Expense) : Bool :=
  e.user = uid &&
  (match q.category with | none => true | some c => e.category = c) &&
  (match q.startDate with | none => true | some a => a.le e.date) &&
  (match q.endDate with | none => true | some b => e.date.le b) &&
  (match q.minAmount with | none => true | some a => a ≤ e.amount) &&
  (match q.maxAmount with | none => true | some b => e.amount ≤ b)

/-- The pagination metadata of the list responses. -/
structure Pagination where
  currentPage : Nat
  totalPages : Nat
  totalItems : Nat
  itemsPerPage : Nat
deriving DecidableEq

/-- Body of the 200 response of GET /expenses. -/
structure ListRes where
  expenses : List Expense
  pagination : Pagination
deriving DecidableEq

/-- `exports.getExpenses`: filter by owner and query, sort, skip
`(page - 1) * limit`, take `limit`; `countDocuments` with the same filter
feeds the metadata, `totalPages = Math.ceil(total / limit)`.  A pure read. -/
def getExpenses (s : Store) (uid : Nat) (q : ListQuery) : ListRes × Store :=
  let matching := s.expenses.filter (listFilter uid q)
  let sorted := sortExpenses (expenseLe q.sortBy q.sortOrderDesc) matching
  let skip := (q.page - 1) * q.limit
  let total := matching.length
  ({ expenses := (sorted.drop skip).take q.limit,
     pagination :=
      { currentPage := q.page, totalPages := jsCeil total q.limit,
        totalItems := total, itemsPerPage := q.limit } }, s)

/-- Query parameters of the admin GET /admin/expenses. -/
structure AdminListQuery where
  page : Nat := 1
  limit : Nat := 10
  userId : Option Nat := none
  category : Option String := none
  startDate : Option DateT := none
  endDate : Option DateT := none
  sortBy : SortField := .date
  sortOrderDesc : Bool := true
deriving DecidableEq

/-- The Mongo filter built by `getAllExpenses`: optional owner, category and
date range; no owner scoping. -/
def adminListFilter (q : AdminListQuery) (e : Expense) : Bool :=
  (match q.userId with | none => true | some u => e.user = u) &&
  (match q.category with | none => true | some c => e.category = c) &&
  (match q.startDate with | none => true | some a => a.le e.date) &&
  (match q.endDate with | none => true | some b => e.date.le b)

/-- `exports.getAllExpenses` (admin): same sort, skip, limit and pagination
arithmetic as `getExpenses` over the unscoped filter. -/
def getAllExpenses (s : Store) (q : AdminListQuery) : ListRes × Store :=
  let matching := s.expenses.filter (adminListFilter q)
  let sorted := sortExpenses (expenseLe q.sortBy q.sortOrderDesc) matching
  let skip := (q.page - 1) * q.limit
  let total := matching.length
  ({ expenses := (sorted.drop skip).take q.limit,
     pagination :=
      { currentPage := q.page, totalPages := jsCeil total q.limit,
        totalItems := total, itemsPerPage := q.limit } }, s)

/-! ## Expense creation pipeline (POST /expenses, `routes/expense.js`) -/

/-- The field-level messages the `expenseValidation` chain records for the
modelled fields.  The chains of express-validator only record errors on the
request object; nothing in the repository ever reads `validationResult`, so
the recorded errors never produce a response. -/
def expenseValidationErrors (b : ExpenseBody) : List String :=
  (if 1 ≤ (strTrim b.title).length ∧ (strTrim b.title).length ≤ 100 then []
   else ["Title must be between 1 and 100 characters"]) ++
  (if 0 ≤ b.amount then [] else ["Amount must be a positive number"]) ++
  (if categoryEnum.contains b.category then [] else ["Invalid category"]) ++
  (match b.description with
   | none => []
   | some d => if d.length ≤ 500 then [] else ["Description cannot exceed 500 characters"]) ++
  (match b.paymentMethod with
   | none => []
   | some p => if paymentMethodEnum.contains p then [] else ["Invalid payment method"]) ++
  (match b.status with
   | none => []
   | some st => if statusEnum.contains st then [] else ["Invalid status"])

/-- The sanitizing effect of the validation chain (`trim` on the string
fields); the only observable effect of the stage, since the recorded errors
are never checked. -/
def expenseValidationSanitize (b : ExpenseBody) : ExpenseBody :=
  { b with
    title := strTrim b.title
    description := b.description.map strTrim }

/-- The document `Expense.create` builds from the body and the caller
(`{ ...req.body, user: req.user.id }`); `date` defaults to the creation
time, the enum fields to their schema defaults. -/
def mkExpenseDoc (nid ownerId : Nat) (now : DateT) (b : ExpenseBody) : Expense :=
  { id := nid, user := ownerId, title := strTrim b.title, amount := b.amount,
    category := b.category, description := b.description.map strTrim,
    date := b.date.getD now,
    paymentMethod := b.paymentMethod.getD "Cash",
    status := b.status.getD "completed" }

/-- Response branches of `createExpense`: 201 with the document, or the
catch-all 500 when the Mongoose schema validation rejects the document. -/
inductive CreateExpenseRes
  | created (e : Expense)
  | internal
deriving DecidableEq

/-- HTTP status of each `createExpense` branch. -/
def CreateExpenseRes.status : CreateExpenseRes → Nat
  | .created _ => 201
  | .internal => 500

/-- `exports.createExpense`: build the document and `Expense.create` it; a
schema validation error is caught at the handler boundary as a 500; on
success the document is appended to the collection. -/
def createExpense (s : Store) (caller : Caller) (nid : Nat) (now : DateT)
    (b : ExpenseBody) : CreateExpenseRes × Store :=
  let e := mkExpenseDoc nid caller.id now b
  if validExpense e then (.created e, { s with expenses := s.expenses ++ [e] })
  else (.internal, s)

/-- The POST /expenses pipeline of `routes/expense.js`: the validation
chain runs first but only sanitizes (its recorded errors are never read),
then the handler runs unconditionally. -/
def postExpenses (s : Store) (caller : Caller) (nid : Nat) (now : DateT)
    (b : ExpenseBody) : CreateExpenseRes × Store :=
  createExpense s caller nid now (expenseValidationSanitize b)

/-! ## Statistics aggregations -/

/-- Optional date range of the stats query. -/
structure DateRange where
  startDate : Option DateT := none
  endDate : Option DateT := none
deriving DecidableEq

/-- The date condition of the stats filter (`$gte` the start, `$lte` the
end; no condition when both bounds are absent, matching the
`Object.keys(dateFilter).length > 0` guard). -/
def dateMatch (r : DateRange) (d : DateT) : Bool :=
  (match r.startDate with | none => true | some a => a.le d) &&
  (match r.endDate with | none => true | some b => d.le b)

/-- The `$match` filter of the stats aggregates: owner scoping plus the
optional date range. -/
def statsFilter (uid : Nat) (r : DateRange) (e : Expense) : Bool :=
  e.user = uid && dateMatch r e.date

/-- One `$group` bucket: `total: { $sum: '$amount' }, count: { $sum: 1 }`. -/
structure AggTotal where
  total : Int
  count : Nat
deriving DecidableEq

/-- Sum of the amounts of a list of expenses. -/
def sumAmounts (l : List Expense) : Int := (l.map Expense.amount).sum

/-- The `$group: { _id: null, ... }` stage: an empty input produces no
group at all (the handler then falls back to `{ total: 0, count: 0 }`). -/
def totalAgg (l : List Expense) : Option AggTotal :=
  if l.isEmpty then none else some { total := sumAmounts l, count := l.length }

/-- First-appearance deduplicated list of the categories present. -/
def categoriesOf (l : List Expense) : List String :=
  (l.map Expense.category).dedup

/-- Ordered insertion on category buckets for the `$sort: { total: -1 }`
stage. -/
def insertCatDesc (a : String × AggTotal) :
    List (String × AggTotal) → List (String × AggTotal)
  | [] => [a]
  | b :: bs => if b.2.total ≤ a.2.total then a :: b :: bs else b :: insertCatDesc a bs

/-- `$group: { _id: '$category', ... }` followed by `$sort: { total: -1 }`. -/
def categoryAgg (l : List Expense) : List (String × AggTotal) :=
  ((categoriesOf l).map (fun c =>
    (c, { total := sumAmounts (l.filter (fun e => e.category = c)),
          count := (l.filter (fun e => e.category = c)).length : AggTotal }))).foldr
    insertCatDesc []

/-- First-appearance deduplicated list of the `$month` keys present. -/
def monthsOf (l : List Expense) : List Nat :=
  (l.map (fun e => e.date.month)).dedup

/-- Ordered insertion on month buckets for the `$sort: { _id: 1 }` stage. -/
def insertMonthAsc (a : Nat × AggTotal) :
    List (Nat × AggTotal) → List (Nat × AggTotal)
  | [] => [a]
  | b :: bs => if a.1 ≤ b.1 then a :: b :: bs else b :: insertMonthAsc a bs

/-- `$group: { _id: { $month: '$date' }, ... }` followed by
`$sort: { _id: 1 }`. -/
def monthlyBuckets (l : List Expense) : List (Nat × AggTotal) :=
  ((monthsOf l).map (fun m =>
    (m, { total := sumAmounts (l.filter (fun e => e.date.month = m)),
          count := (l.filter (fun e => e.date.month = m)).length : AggTotal }))).foldr
    insertMonthAsc []

/-- The current-year window of the user-facing stats route (unnamed router
source): `$gte: new Date(y, 0, 1), $lt: new Date(y + 1, 0, 1)` -
half-open at January 1 of the next year. -/
def inYearHalfOpen (y : Nat) (d : DateT) : Bool :=
  (jan1 y).le d && d.lt (jan1 (y + 1))

/-- The current-year window of `getExpenseStats` in `expenseController.js`
and of `getDashboardStats` in the admin controller:
`$gte: new Date(y, 0, 1), $lte: new Date(y, 11, 31)` - inclusive up to
local midnight on December 31. -/
def inYearInclusive (y : Nat) (d : DateT) : Bool :=
  (jan1 y).le d && d.le (dec31 y)

/-- The monthly aggregation of the user-facing stats route: owner-scoped,
half-open year window. -/
def monthlyExpensesUserRoute (s : Store) (uid : Nat) (y : Nat) :
    List (Nat × AggTotal) :=
  monthlyBuckets (s.expenses.filter (fun e => e.user = uid && inYearHalfOpen y e.date))

/-- The monthly aggregation of `getExpenseStats` in `expenseController.js`:
owner-scoped, inclusive-December-31 window. -/
def monthlyExpensesController (s : Store) (uid : Nat) (y : Nat) :
    List (Nat × AggTotal) :=
  monthlyBuckets (s.expenses.filter (fun e => e.user = uid && inYearInclusive y e.date))

/-- The monthly aggregation of the admin `getDashboardStats`: unscoped,
inclusive-December-31 window. -/
def monthlyExpensesAdminDashboard (s : Store) (y : Nat) :
    List (Nat × AggTotal) :=
  monthlyBuckets (s.expenses.filter (fun e => inYearInclusive y e.date))

/-- Body of the 200 response of GET /expenses/stats
(`exports.getExpenseStats`). -/
structure StatsRes where
  totalExpenses : AggTotal
  expensesByCategory : List (String × AggTotal)
  monthlyExpenses : List (Nat × AggTotal)
  recentExpenses : List Expense
deriving DecidableEq

/-- `exports.getExpenseStats`: four aggregations over the owner-scoped,
optionally date-filtered collection (the monthly one over the inclusive
current-year window instead), plus the five most recent expenses.  Every
stage is a read; the store is returned unchanged. -/
def getExpenseStats (s : Store) (uid : Nat) (r : DateRange) (currentYear : Nat) :
    StatsRes × Store :=
  let matching := s.expenses.filter (statsFilter uid r)
  ({ totalExpenses := (totalAgg matching).getD { total := 0, count := 0 },
     expensesByCategory := categoryAgg matching,
     monthlyExpenses := monthlyExpensesController s uid currentYear,
     recentExpenses := (sortExpenses (expenseLe .date true) matching).take 5 }, s)

/-! ## Router dispatch (C10): the two versions of the expense router -/

/-- One segment of an Express route pattern: a literal or a `:name`
parameter. -/
inductive Seg
  | lit (s : String)
  | param (name : String)
deriving DecidableEq

/-- HTTP method. -/
inductive Method
  | get
  | post
  | put
  | delete
deriving DecidableEq

/-- The handlers of the expense router. -/
inductive ExpenseHandler
  | create
  | list
  | getById
  | update
  | remove
  | stats
deriving DecidableEq

/-- A registered route. -/
structure Route where
  method : Method
  pattern : List Seg
  handler : ExpenseHandler
deriving DecidableEq

/-- Does a pattern segment match a path segment. -/
def segMatch : Seg → String → Bool
  | .lit s, x => s = x
  | .param _, _ => true

/-- Does a whole pattern match a path (Express matches the full mounted
path, segment by segment). -/
def patternMatch : List Seg → List String → Bool
  | [], [] => true
  | p :: ps, x :: xs => segMatch p x && patternMatch ps xs
  | _, _ => false

/-- The parameter bindings a matching pattern extracts (`req.params`). -/
def bindParams : List Seg → List String → List (String × String)
  | .param n :: ps, x :: xs => (n, x) :: bindParams ps xs
  | _ :: ps, _ :: xs => bindParams ps xs
  | _, _ => []

/-- Express dispatch: the first registered route whose method and pattern
match wins; it receives the extracted parameters. -/
def dispatch (routes : List Route) (m : Method) (path : List String) :
    Option (ExpenseHandler × List (String × String)) :=
  (routes.find? (fun r => decide (r.method = m) && patternMatch r.pattern path)).map
    (fun r => (r.handler, bindParams r.pattern path))

/-- Registration order of the unnamed expense router source: POST /, GET /,
GET /:id, PUT /:id, DELETE /:id, and only then GET /stats. -/
def part001Routes : List Route :=
  [⟨.post, [], .create⟩,
   ⟨.get, [], .list⟩,
   ⟨.get, [.param "id"], .getById⟩,
   ⟨.put, [.param "id"], .update⟩,
   ⟨.delete, [.param "id"], .remove⟩,
   ⟨.get, [.lit "stats"], .stats⟩]

/-- Registration order of `routes/expense.js`: POST /, GET /, GET /stats,
GET /:id, PUT /:id, DELETE /:id. -/
def expenseJsRoutes : List Route :=
  [⟨.post, [], .create⟩,
   ⟨.get, [], .list⟩,
   ⟨.get, [.lit "stats"], .stats⟩,
   ⟨.get, [.param "id"], .getById⟩,
   ⟨.put, [.param "id"], .update⟩,
   ⟨.delete, [.param "id"], .remove⟩]

/-! ## Derived notions and concrete fixtures used by the theorems -/

/-- The invariant of the spec data model: at most one user per email value. -/
def uniqueEmails (s : Store) : Prop :=
  s.users.Pairwise (fun a b => a.email ≠ b.email)

/-- A mid-January date used by the fixtures. -/
def dJan15 : DateT := ⟨2025, 1, 15, 0⟩

/-- The day after `dJan15`. -/
def dJan16 : DateT := ⟨2025, 1, 16, 0⟩

/-- A fixture expense owned by user 10. -/
def eLunch : Expense :=
  { id := 1, user := 10, title := "Lunch", amount := 5,
    category := "Food & Dining", date := dJan15 }

/-- A store holding only `eLunch`. -/
def sOne : Store := ⟨[], [eLunch]⟩

/-- A valid update body for `eLunch`. -/
def bLunch : ExpenseBody := { title := "Lunch", amount := 7, category := "Food & Dining" }

/-- A deactivated fixture user whose stored hash is for password `pw`. -/
def uInactive : User :=
  { id := 1, name := "Bob", email := "bob@x.com", password := hashPassword "pw",
    isActive := false }

/-- An active fixture user with an earlier `lastLogin`. -/
def uActive : User :=
  { id := 2, name := "Ann", email := "ann@x.com", password := hashPassword "pw",
    isActive := true, lastLogin := some dJan15 }

/-- A store holding the two auth fixture users. -/
def sAuth : Store := ⟨[uInactive, uActive], []⟩

/-- The empty store. -/
def sEmpty : Store := ⟨[], []⟩

/-- The store after a first registration of `ann@x.com` committed. -/
def winnerStore : Store := (register sEmpty 1 "Ann" "ann@x.com" "pw" 0 "USD").2

/-- The user record that first registration created. -/
def uAnn : User :=
  { id := 1, name := "Ann", email := "ann@x.com", password := hashPassword "pw" }

/-- Fixture operator credentials. -/
def cfg0 : Config := ⟨"admin@x.com", "secret"⟩

/-- An existing admin user matching `cfg0`. -/
def uAdmin : User :=
  { id := 5, name := "Admin", email := "admin@x.com",
    password := hashPassword "secret", role := .admin }

/-- A store already holding `uAdmin`. -/
def sAdmin : Store := ⟨[uAdmin], []⟩

/-- A fixture user with one expense, for the deletion frame property. -/
def uVic : User :=
  { id := 3, name := "Vic", email := "vic@x.com", password := hashPassword "pw" }

/-- The expense owned by `uVic`. -/
def eVic : Expense :=
  { id := 9, user := 3, title := "Bus", amount := 2,
    category := "Transportation", date := dJan15 }

/-- A store holding `uVic` and the expense `eVic`. -/
def sVic : Store := ⟨[uVic], [eVic]⟩

/-- An expense dated one millisecond after local midnight on December 31. -/
def eNye : Expense :=
  { id := 21, user := 1, title := "Party", amount := 10,
    category := "Entertainment", date := ⟨2025, 12, 31, 1⟩ }

/-- A store holding only `eNye`. -/
def sNye : Store := ⟨[], [eNye]⟩

/-- A creation date used by the create-pipeline fixtures. -/
def dNow : DateT := ⟨2025, 6, 1, 0⟩

/-- A create body with a negative amount. -/
def badBody : ExpenseBody := { title := "Coffee", amount := -1, category := "Food & Dining" }

/-! ## Helper lemmas -/

theorem length_insertLe (le : Expense → Expense → Bool) (a : Expense) (l : List Expense) :
    (insertLe le a l).length = l.length + 1 := by
  induction l with
  | nil => rfl
  | cons b bs ih =>
    unfold insertLe
    by_cases h : le a b = true
    · simp [h]
    · simp [h, ih]

theorem length_sortExpenses (le : Expense → Expense → Bool) (l : List Expense) :
    (sortExpenses le l).length = l.length := by
  induction l with
  | nil => rfl
  | cons b bs ih =>
    simp [sortExpenses, List.foldr] at ih ⊢
    rw [length_insertLe, ih]

theorem le_jsCeil_mul (total limit : Nat) (h : 1 ≤ limit) :
    total ≤ jsCeil total limit * limit := by
  unfold jsCeil
  rw [Nat.mul_comm]
  have hd := Nat.div_add_mod (total + limit - 1) limit
  have hm : (total + limit - 1) % limit < limit := Nat.mod_lt _ h
  generalize limit * ((total + limit - 1) / limit) = P at hd ⊢
  generalize (total + limit - 1) % limit = R at hd hm
  omega

theorem jsCeil_mul_le (total limit : Nat) :
    jsCeil total limit * limit ≤ total + limit - 1 := by
  unfold jsCeil
  exact Nat.div_mul_le_self _ _

theorem paginate_empty (le : Expense → Expense → Bool) (l : List Expense)
    (page limit : Nat) (hl : 1 ≤ limit) (hover : jsCeil l.length limit < page) :
    ((sortExpenses le l).drop ((page - 1) * limit)).take limit = [] := by
  have hlen : (sortExpenses le l).length = l.length := length_sortExpenses le l
  have h1 : l.length ≤ jsCeil l.length limit * limit := le_jsCeil_mul _ _ hl
  have h2 : jsCeil l.length limit * limit ≤ (page - 1) * limit :=
    Nat.mul_le_mul_right _ (by omega)
  have h3 : (sortExpenses le l).length ≤ (page - 1) * limit := by omega
  rw [List.drop_eq_nil_of_le h3, List.take_nil]

theorem createUser_uniqueEmails (s : Store) (u : User) (s2 : Store)
    (h : s.createUser u = .ok s2) (hs : uniqueEmails s) : uniqueEmails s2 := by
  unfold Store.createUser at h
  by_cases hany : (s.users.any fun v => v.email = u.email) = true
  · simp [hany] at h
  · simp [hany] at h
    subst h
    unfold uniqueEmails at hs ⊢
    simp only [List.pairwise_append]
    refine ⟨hs, by simp, ?_⟩
    intro a ha b hb
    simp at hb
    subst hb
    simp at hany
    exact fun hcon => (hany a ha) hcon

/-! ## Claim theorems -/

/-- C1: for every GET /expenses/:id where the expense exists, a caller who
is neither admin nor the owner receives Forbidden and no expense, while a
caller with role admin succeeds regardless of the owner; the update and
delete handlers apply the identical ownership check with the same outcomes
(the admin update succeeding whenever the re-validated document is
accepted). -/
theorem expense_ownership_check (s : Store) (caller : Caller) (eid : Nat)
    (b : ExpenseBody) (e : Expense) (hfind : s.findExpenseById eid = some e) :
    (e.user ≠ caller.id ∧ caller.role ≠ Role.admin →
      (getExpense s caller eid).1 = .forbidden ∧
      (updateExpense s caller eid b).1 = .forbidden ∧ (updateExpense s caller eid b).2 = s ∧
      (deleteExpense s caller eid).1 = .forbidden ∧ (deleteExpense s caller eid).2 = s)
    ∧ (caller.role = Role.admin →
      (getExpense s caller eid).1 = .ok e ∧
      (deleteExpense s caller eid).1 = .ok ∧
      (validExpense (applyUpdate e b) = true →
        (updateExpense s caller eid b).1 = .ok (applyUpdate e b))) := by
  constructor
  · intro h
    simp [getExpense, updateExpense, deleteExpense, hfind, h]
  · intro hadm
    have hne : ¬ (e.user ≠ caller.id ∧ caller.role ≠ Role.admin) := by
      simp [hadm]
    simp [getExpense, updateExpense, deleteExpense, hfind, hne]
    intro hv
    simp [hv]

/-- C1 witness: the ownership check evaluated on a concrete store, for a
non-admin stranger and for an admin stranger. -/
theorem expense_ownership_check_witness :
    ((getExpense sOne ⟨11, Role.user⟩ 1).1 = .forbidden ∧
     (updateExpense sOne ⟨11, Role.user⟩ 1 bLunch).1 = .forbidden ∧
     (updateExpense sOne ⟨11, Role.user⟩ 1 bLunch).2 = sOne ∧
     (deleteExpense sOne ⟨11, Role.user⟩ 1).1 = .forbidden ∧
     (deleteExpense sOne ⟨11, Role.user⟩ 1).2 = sOne) ∧
    ((getExpense sOne ⟨11, Role.admin⟩ 1).1 = .ok eLunch ∧
     (deleteExpense sOne ⟨11, Role.admin⟩ 1).1 = .ok ∧
     (updateExpense sOne ⟨11, Role.admin⟩ 1 bLunch).1 = .ok (applyUpdate eLunch bLunch)) :=
  ⟨(expense_ownership_check sOne ⟨11, .user⟩ 1 bLunch eLunch rfl).1 (by decide),
   have h := (expense_ownership_check sOne ⟨11, .admin⟩ 1 bLunch eLunch rfl).2 rfl
   ⟨h.1, h.2.1, h.2.2 (by decide)⟩⟩

/-- C2: a POST /expenses whose body carries a negative amount (or an
unknown category) is NOT rejected by the field-validation stage: the chain
records the error but nothing checks it, the handler runs, and the Mongoose
schema rejection surfaces as the generic 500 instead of ValidationFailed
400; no document is persisted. -/
theorem create_validation_bypass :
    expenseValidationErrors badBody = ["Amount must be a positive number"] ∧
    expenseValidationErrors badBody ≠ [] ∧
    (postExpenses sEmpty ⟨7, .user⟩ 1 dNow badBody).1 = .internal ∧
    CreateExpenseRes.status (postExpenses sEmpty ⟨7, .user⟩ 1 dNow badBody).1 = 500 ∧
    (postExpenses sEmpty ⟨7, .user⟩ 1 dNow badBody).2 = sEmpty ∧
    (postExpenses sEmpty ⟨7, .user⟩ 1 dNow
       { title := "Coffee", amount := 4, category := "Nope" }).1 = .internal ∧
    (postExpenses sEmpty ⟨7, .user⟩ 1 dNow
       { title := "Coffee", amount := 4, category := "Nope" }).2 = sEmpty := by
  decide

/-- C3 counterexample: a login against a deactivated account with a wrong
password answers InvalidCredentials, not AccountDisabled, because the
credentials check precedes the isActive check. -/
theorem login_disabled_wrong_password_cx :
    (login sAuth "bob@x.com" "wrong" dJan16).1 = .invalidCredentials ∧
    (login sAuth "bob@x.com" "wrong" dJan16).1 ≠ .accountDisabled ∧
    uInactive.isActive = false ∧
    sAuth.findUserByEmail (normalizeEmail "bob@x.com") = some uInactive := by
  refine ⟨by decide, by decide, rfl, by decide⟩

/-- C3 as amended: with both fields present, a deactivated account fails
AccountDisabled exactly when the password is correct and InvalidCredentials
otherwise, and correct credentials on an active account succeed with
`lastLogin` set to the login time. -/
theorem login_disabled_order_and_success (s : Store) (u : User)
    (email password : String) (now : DateT)
    (he : email ≠ "") (hp : password ≠ "")
    (hu : s.findUserByEmail (normalizeEmail email) = some u) :
    (u.isActive = false → verifyPassword password u.password = true →
       (login s email password now).1 = .accountDisabled ∧
       (login s email password now).2 = s) ∧
    (verifyPassword password u.password = false →
       (login s email password now).1 = .invalidCredentials ∧
       (login s email password now).2 = s) ∧
    (u.isActive = true → verifyPassword password u.password = true →
       (login s email password now).1 = .ok { u with lastLogin := some now } u.id ∧
       (login s email password now).2 = s.saveUser { u with lastLogin := some now }) := by
  unfold login
  simp [he, hp, hu]
  refine ⟨?_, ?_, ?_⟩
  · intro hact hv
    simp [hv, hact]
  · intro hv
    simp [hv]
  · intro hact hv
    simp [hv, hact]

/-- C3 witness: the amended login behavior evaluated on the fixture store,
for the disabled account with the right password and for a successful
login. -/
theorem login_disabled_order_and_success_witness :
    ((login sAuth "bob@x.com" "pw" dJan16).1 = .accountDisabled ∧
     (login sAuth "bob@x.com" "pw" dJan16).2 = sAuth) ∧
    ((login sAuth "ann@x.com" "pw" dJan16).1
        = .ok { uActive with lastLogin := some dJan16 } 2 ∧
     (login sAuth "ann@x.com" "pw" dJan16).2
        = sAuth.saveUser { uActive with lastLogin := some dJan16 }) :=
  ⟨(login_disabled_order_and_success sAuth uInactive "bob@x.com" "pw" dJan16
      (by decide) (by decide) (by decide)).1 rfl (by decide),
   (login_disabled_order_and_success sAuth uActive "ann@x.com" "pw" dJan16
      (by decide) (by decide) (by decide)).2.2 rfl (by decide)⟩

/-- C4 counterexample: when the duplicate registration is detected as a
store write-conflict (the existence check read a store without the email,
the create ran after a concurrent winner committed), the handler answers
the generic 500, not Conflict.  No second record is created. -/
theorem register_writeconflict_cx :
    (registerCore sEmpty winnerStore 2 "Bob" "ann@x.com" "pw2" 0 "USD").1 = .internal ∧
    (registerCore sEmpty winnerStore 2 "Bob" "ann@x.com" "pw2" 0 "USD").1 ≠ .conflict ∧
    RegisterRes.status (registerCore sEmpty winnerStore 2 "Bob" "ann@x.com" "pw2" 0 "USD").1
      = 500 ∧
    (registerCore sEmpty winnerStore 2 "Bob" "ann@x.com" "pw2" 0 "USD").2 = winnerStore ∧
    winnerStore.users.length = 1 := by
  decide

/-- C4 as amended: a second sequential registration with an email already
held fails Conflict and writes nothing; a duplicate detected as a store
write-conflict fails with the generic 500 (not Conflict) and also writes
nothing; in every case at most one user per email value is preserved. -/
theorem register_conflict_translation (s s1 : Store) (nid : Nat)
    (name email pw : String) (mb : Int) (cur : String) :
    (∀ u, s.findUserByEmail (normalizeEmail email) = some u →
       register s nid name email pw mb cur = (.conflict, s)) ∧
    (s.findUserByEmail (normalizeEmail email) = none →
       (∃ u, u ∈ s1.users ∧ u.email = normalizeEmail email) →
       registerCore s s1 nid name email pw mb cur = (.internal, s1)) ∧
    (uniqueEmails s1 → uniqueEmails (registerCore s s1 nid name email pw mb cur).2) := by
  refine ⟨?_, ?_, ?_⟩
  · intro u hu
    unfold register registerCore
    simp [hu]
  · intro hnone hex
    unfold registerCore Store.createUser
    rw [hnone]
    have hany : (s1.users.any fun v =>
        v.email = (newUserDoc nid name email pw mb cur).email) = true := by
      rw [List.any_eq_true]
      obtain ⟨u, hmem, heq⟩ := hex
      exact ⟨u, hmem, by simp [heq, newUserDoc]⟩
    simp [hany]
  · intro huniq
    unfold registerCore
    cases hf : s.findUserByEmail (normalizeEmail email) with
    | some u => simpa using huniq
    | none =>
      simp only
      cases hc : s1.createUser (newUserDoc nid name email pw mb cur) with
      | ok s2 => simpa using createUser_uniqueEmails _ _ _ hc huniq
      | error e => simpa using huniq

/-- C4 witness: the three branches of the amended claim evaluated on the
concrete race between two registrations of `ann@x.com`. -/
theorem register_conflict_translation_witness :
    register winnerStore 2 "Bob" "ann@x.com" "pw2" 0 "USD" = (.conflict, winnerStore) ∧
    registerCore sEmpty winnerStore 2 "Bob" "ann@x.com" "pw2" 0 "USD"
      = (.internal, winnerStore) ∧
    uniqueEmails (registerCore sEmpty winnerStore 2 "Bob" "ann@x.com" "pw2" 0 "USD").2 :=
  ⟨(register_conflict_translation winnerStore winnerStore 2 "Bob" "ann@x.com" "pw2" 0 "USD").1
     uAnn (by decide),
   (register_conflict_translation sEmpty winnerStore 2 "Bob" "ann@x.com" "pw2" 0 "USD").2.1
     (by decide) ⟨uAnn, by decide, by decide⟩,
   (register_conflict_translation sEmpty winnerStore 2 "Bob" "ann@x.com" "pw2" 0 "USD").2.2
     (by unfold uniqueEmails; decide)⟩

/-- C5: the stats handler is a pure read (the store is returned unchanged,
so a second computation with no intervening writes yields the identical
result), and the reported grand total and count equal the amount sum and
the cardinality of exactly the owner-scoped, date-filtered expenses. -/
theorem stats_pure_and_total (s : Store) (uid : Nat) (r : DateRange) (y : Nat) :
    (getExpenseStats s uid r y).2 = s ∧
    (getExpenseStats ((getExpenseStats s uid r y).2) uid r y).1
      = (getExpenseStats s uid r y).1 ∧
    (getExpenseStats s uid r y).1.totalExpenses.total
      = sumAmounts (s.expenses.filter (statsFilter uid r)) ∧
    (getExpenseStats s uid r y).1.totalExpenses.count
      = (s.expenses.filter (statsFilter uid r)).length := by
  refine ⟨rfl, rfl, ?_, ?_⟩ <;>
  · unfold getExpenseStats totalAgg
    rcases h : (s.expenses.filter (statsFilter uid r)).isEmpty with hf | ht
    · simp [h]
    · simp [h]
      rw [List.isEmpty_iff] at h
      simp [h, sumAmounts]

/-- C5 witness: the stats contract evaluated on a concrete store. -/
theorem stats_pure_and_total_witness :
    (getExpenseStats sOne 10 {} 2025).2 = sOne ∧
    (getExpenseStats sOne 10 {} 2025).1.totalExpenses.total = 5 ∧
    (getExpenseStats sOne 10 {} 2025).1.totalExpenses.count = 1 :=
  ⟨(stats_pure_and_total sOne 10 {} 2025).1,
   ((stats_pure_and_total sOne 10 {} 2025).2.2.1).trans (by decide),
   ((stats_pure_and_total sOne 10 {} 2025).2.2.2).trans (by decide)⟩

/-- C6: for both list endpoints the metadata reports the exact number of
records matching the filter, `totalPages` is the ceiling of
`totalItems / itemsPerPage` (characterized by the two tight bounds), and a
page beyond `totalPages` yields the empty item list with the same
metadata, not an error. -/
theorem pagination_contract (s : Store) (uid : Nat) (q : ListQuery) (aq : AdminListQuery)
    (_hp : 1 ≤ q.page) (hl : 1 ≤ q.limit) (_hap : 1 ≤ aq.page) (hal : 1 ≤ aq.limit) :
    ((getExpenses s uid q).1.pagination.totalItems
        = (s.expenses.filter (listFilter uid q)).length ∧
     (getExpenses s uid q).1.pagination.itemsPerPage = q.limit ∧
     (getExpenses s uid q).1.pagination.currentPage = q.page ∧
     (getExpenses s uid q).1.pagination.totalItems
        ≤ (getExpenses s uid q).1.pagination.totalPages * q.limit ∧
     (getExpenses s uid q).1.pagination.totalPages * q.limit
        ≤ (getExpenses s uid q).1.pagination.totalItems + q.limit - 1 ∧
     ((getExpenses s uid q).1.pagination.totalPages < q.page →
        (getExpenses s uid q).1.expenses = [])) ∧
    ((getAllExpenses s aq).1.pagination.totalItems
        = (s.expenses.filter (adminListFilter aq)).length ∧
     (getAllExpenses s aq).1.pagination.itemsPerPage = aq.limit ∧
     (getAllExpenses s aq).1.pagination.currentPage = aq.page ∧
     (getAllExpenses s aq).1.pagination.totalItems
        ≤ (getAllExpenses s aq).1.pagination.totalPages * aq.limit ∧
     (getAllExpenses s aq).1.pagination.totalPages * aq.limit
        ≤ (getAllExpenses s aq).1.pagination.totalItems + aq.limit - 1 ∧
     ((getAllExpenses s aq).1.pagination.totalPages < aq.page →
        (getAllExpenses s aq).1.expenses = [])) := by
  refine ⟨⟨rfl, rfl, rfl, le_jsCeil_mul _ _ hl, jsCeil_mul_le _ _, ?_⟩,
          ⟨rfl, rfl, rfl, le_jsCeil_mul _ _ hal, jsCeil_mul_le _ _, ?_⟩⟩
  · intro hover
    exact paginate_empty _ _ _ _ hl hover
  · intro hover
    exact paginate_empty _ _ _ _ hal hover

/-- C6 witness: a request three pages past the single page of data yields
the empty list on both endpoints. -/
theorem pagination_contract_witness :
    (getExpenses sOne 10 { page := 3 }).1.expenses = [] ∧
    (getAllExpenses sOne { page := 4 }).1.expenses = [] :=
  ⟨(pagination_contract sOne 10 { page := 3 } { page := 4 }
      (by decide) (by decide) (by decide) (by decide)).1.2.2.2.2.2 (by decide),
   (pagination_contract sOne 10 { page := 3 } { page := 4 }
      (by decide) (by decide) (by decide) (by decide)).2.2.2.2.2.2 (by decide)⟩

/-- C7: the user-facing stats route buckets the current year over the
half-open window up to January 1 of the next year, the expense-controller
and admin-dashboard variants over the window inclusive up to midnight on
December 31; an expense dated after that midnight is counted by the first
and not by the second, so the monthly aggregations differ extensionally. -/
theorem monthly_window_mismatch :
    inYearHalfOpen 2025 eNye.date = true ∧
    inYearInclusive 2025 eNye.date = false ∧
    (jan1 2025).le eNye.date = true ∧
    eNye.date.lt (jan1 2026) = true ∧
    eNye.date.le (dec31 2025) = false ∧
    monthlyExpensesUserRoute sNye 1 2025 = [(12, ⟨10, 1⟩)] ∧
    monthlyExpensesController sNye 1 2025 = [] ∧
    monthlyExpensesAdminDashboard sNye 2025 = [] ∧
    monthlyExpensesUserRoute sNye 1 2025 ≠ monthlyExpensesController sNye 1 2025 := by
  decide

/-- C8 counterexample: a matching admin login against a store without the
admin user creates the role-admin record but does not update its
`lastLogin` (it stays unset rather than the login time), contradicting the
claim that both branches update it before issuing the token. -/
theorem adminLogin_create_no_lastLogin_cx :
    (adminLogin cfg0 sEmpty "admin@x.com" "secret" 1 dJan16).1
      = .ok (adminUserDoc cfg0 1) 1 ∧
    (adminUserDoc cfg0 1).lastLogin = none ∧
    (adminUserDoc cfg0 1).lastLogin ≠ some dJan16 ∧
    (adminUserDoc cfg0 1).role = .admin ∧
    (adminLogin cfg0 sEmpty "admin@x.com" "secret" 1 dJan16).2
      = ⟨[adminUserDoc cfg0 1], []⟩ := by
  decide

/-- C8 as amended: with both fields present, a mismatch fails
InvalidCredentials with no user write; a match updates `lastLogin` of the
user holding the admin email when one exists, and otherwise creates the
role-admin user (with `lastLogin` left unset) before issuing the token. -/
theorem adminLogin_spec (cfg : Config) (s : Store) (email pw : String)
    (nid : Nat) (now : DateT) (he : email ≠ "") (hp : pw ≠ "") :
    (¬ (email = cfg.adminEmail ∧ pw = cfg.adminPassword) →
       adminLogin cfg s email pw nid now = (.invalidCredentials, s)) ∧
    (email = cfg.adminEmail → pw = cfg.adminPassword →
      (∀ u, s.findUserByEmail cfg.adminEmail = some u →
        adminLogin cfg s email pw nid now =
          (.ok { u with lastLogin := some now } u.id,
           s.saveUser { u with lastLogin := some now })) ∧
      (s.findUserByEmail cfg.adminEmail = none →
        adminLogin cfg s email pw nid now =
          (.ok (adminUserDoc cfg nid) nid,
           { s with users := s.users ++ [adminUserDoc cfg nid] }))) := by
  refine ⟨?_, ?_⟩
  · intro hmis
    have hcond : email ≠ cfg.adminEmail ∨ pw ≠ cfg.adminPassword := not_and_or.mp hmis
    unfold adminLogin
    rcases hcond with h | h <;> simp [he, hp, h]
  · intro he2 hp2
    subst he2
    subst hp2
    constructor
    · intro u hu
      unfold adminLogin
      simp [he, hp, hu]
    · intro hnone
      have hnone2 := hnone
      unfold Store.findUserByEmail at hnone2
      rw [List.find?_eq_none] at hnone2
      have hany : (s.users.any fun v => v.email = (adminUserDoc cfg nid).email) = false := by
        rw [List.any_eq_false]
        intro x hx
        have := hnone2 x hx
        simp [adminUserDoc] at this ⊢
        exact this
      unfold adminLogin Store.createUser
      simp [he, hp, hnone, hany]

/-- C8 witness: the amended admin-login behavior on a store already holding
the admin user, for a match and for a mismatch. -/
theorem adminLogin_spec_witness :
    adminLogin cfg0 sAdmin "admin@x.com" "secret" 9 dJan16
      = (.ok { uAdmin with lastLogin := some dJan16 } 5,
         sAdmin.saveUser { uAdmin with lastLogin := some dJan16 }) ∧
    adminLogin cfg0 sAdmin "admin@x.com" "wrong" 9 dJan16 = (.invalidCredentials, sAdmin) :=
  ⟨((adminLogin_spec cfg0 sAdmin "admin@x.com" "secret" 9 dJan16
       (by decide) (by decide)).2 rfl rfl).1 uAdmin (by decide),
   (adminLogin_spec cfg0 sAdmin "admin@x.com" "wrong" 9 dJan16
       (by decide) (by decide)).1 (by decide)⟩

/-- C9: deleting a user, via the self-service account deletion or the admin
delete-user handler, leaves the expense collection unchanged in every
branch, and on success removes exactly the records with the target id from
the user collection. -/
theorem user_delete_expense_frame (s : Store) (callerId : Nat) (pw : String)
    (caller : Caller) (uid : Nat) :
    (deleteAccount s callerId pw).2.expenses = s.expenses ∧
    ((deleteAccount s callerId pw).1 = .ok →
       (deleteAccount s callerId pw).2.users
         = s.users.filter (fun v => ¬ v.id = callerId)) ∧
    (deleteUser s caller uid).2.expenses = s.expenses ∧
    ((deleteUser s caller uid).1 = .ok →
       (deleteUser s caller uid).2.users = s.users.filter (fun v => ¬ v.id = uid)) := by
  have hacct : ∀ u, s.findUserById callerId = some u → u.id = callerId := by
    intro u hu
    unfold Store.findUserById at hu
    have := List.find?_some hu
    simpa using this
  have husr : ∀ u, s.findUserById uid = some u → u.id = uid := by
    intro u hu
    unfold Store.findUserById at hu
    have := List.find?_some hu
    simpa using this
  refine ⟨?_, ?_, ?_, ?_⟩
  · unfold deleteAccount
    by_cases hpw : pw = ""
    · simp [hpw]
    · cases hf : s.findUserById callerId with
      | none => simp [hpw, hf]
      | some u =>
        by_cases hv : verifyPassword pw u.password = true
        · simp [hpw, hf, hv, Store.deleteUserById]
        · simp [hpw, hf, hv]
  · intro hok
    unfold deleteAccount at hok ⊢
    by_cases hpw : pw = ""
    · simp [hpw] at hok
    · cases hf : s.findUserById callerId with
      | none => simp [hpw, hf] at hok
      | some u =>
        by_cases hv : verifyPassword pw u.password = true
        · simp [hpw, hf, hv, Store.deleteUserById, hacct u hf]
        · simp [hpw, hf, hv] at hok
  · unfold deleteUser
    cases hf : s.findUserById uid with
    | none => simp [hf]
    | some u =>
      by_cases hc : u.id = caller.id
      · simp [hf, hc]
      · simp [hf, hc, Store.deleteUserById]
  · intro hok
    unfold deleteUser at hok ⊢
    cases hf : s.findUserById uid with
    | none => simp [hf] at hok
    | some u =>
      have hid := husr u hf
      by_cases hc : u.id = caller.id
      · simp [hf, hc] at hok
      · have hc2 : ¬ uid = caller.id := by
          rw [← hid]
          exact hc
        simp [hf, hc, hc2, Store.deleteUserById, hid]

/-- C9 witness: deleting the fixture user leaves the expense collection
untouched on both paths. -/
theorem user_delete_expense_frame_witness :
    (deleteAccount sVic 3 "pw").2.expenses = sVic.expenses ∧
    (deleteAccount sVic 3 "pw").2.users = [] ∧
    (deleteUser sVic ⟨99, .admin⟩ 3).2.expenses = sVic.expenses :=
  ⟨(user_delete_expense_frame sVic 3 "pw" ⟨99, .admin⟩ 3).1,
   ((user_delete_expense_frame sVic 3 "pw" ⟨99, .admin⟩ 3).2.1 (by decide)).trans (by decide),
   (user_delete_expense_frame sVic 3 "pw" ⟨99, .admin⟩ 3).2.2.1⟩

/-- C10: in the unnamed router version GET /:id is registered before
GET /stats, so a GET of /expenses/stats dispatches to the by-id handler
with `id` bound to the string `stats`, the stats handler is unreachable for
every method and path, and the dispatch differs from `routes/expense.js`,
which registers /stats first. -/
theorem stats_route_shadowed (path : List String) :
    dispatch part001Routes .get ["stats"] = some (.getById, [("id", "stats")]) ∧
    dispatch expenseJsRoutes .get ["stats"] = some (.stats, []) ∧
    dispatch part001Routes .get ["stats"] ≠ dispatch expenseJsRoutes .get ["stats"] ∧
    (patternMatch [Seg.lit "stats"] path = true →
       dispatch part001Routes .get path = some (.getById, [("id", path.headD "")])) ∧
    (∀ (m : Method) (ps : List (String × String)),
       dispatch part001Routes m path ≠ some (.stats, ps)) := by
  refine ⟨by decide, by decide, by decide, ?_, ?_⟩
  · intro hm
    match path, hm with
    | [], hm => simp [patternMatch] at hm
    | [x], hm =>
      simp [patternMatch, segMatch] at hm
      subst hm
      simp [dispatch, part001Routes, patternMatch, segMatch, bindParams]
    | x :: y :: ys, hm => simp [patternMatch] at hm
  · intro m ps
    match m, path with
    | .get, [] =>
      simp [dispatch, part001Routes, patternMatch, segMatch]
    | .get, [x] =>
      simp [dispatch, part001Routes, patternMatch, segMatch, bindParams]
    | .get, x :: y :: ys =>
      simp [dispatch, part001Routes, patternMatch, segMatch]
    | .post, l => cases l <;> simp [dispatch, part001Routes, patternMatch, segMatch]
    | .put, l => cases l <;> simp [dispatch, part001Routes, patternMatch, segMatch]
    | .delete, l => cases l <;> simp [dispatch, part001Routes, patternMatch, segMatch]

/-- C10 witness: the dispatch of GET /expenses/stats under the unnamed
router version, and the unreachability instantiated at a sample path. -/
theorem stats_route_shadowed_witness :
    dispatch part001Routes .get ["stats"] = some (.getById, [("id", "stats")]) ∧
    dispatch part001Routes .get ["abc"] ≠ some (.stats, [("id", "abc")]) :=
  ⟨(stats_route_shadowed ["stats"]).2.2.2.1 (by decide),
   (stats_route_shadowed ["abc"]).2.2.2.2 .get [("id", "abc")]⟩

end ExpenseEase
